import Mathlib

/-!
Verification of the language-tutor dialogue layer.

A shallow embedding of the repository under src/src/language_tutor:
the Dialogue model (models/dialogue.py), the dialogue parsers
(services/file_service.py and api/llm_client.py), JSON import/export
(services/file_service.py), the audio batch synthesis and retention
cleanup (services/audio_service.py with api/tts_client_new.py), and the
parameter validation of services/dialogue_service.py.

Modelling conventions:
- datetime values are abstract clock ticks (Nat); datetime.now() becomes
  an explicit time argument, datetime.isoformat() its canonical rendering.
- Python str.strip is String.trim, str.lower is String.toLower (ASCII),
  the substring test `w in s` is an infix test on the character lists.
- JSON values parsed by json.load are an inductive Json type; a JSON
  object is an association list looked up by key (Python dicts cannot
  hold duplicate keys, so first-match lookup models dict.get).
- File-system effects are made explicit: export returns the Json value
  it writes, the audio directory is a list of (path, creation-time)
  entries threaded through delete/cleanup, and speech synthesis is
  recorded as a list of SynthCall values instead of a network call.
- pydantic validation failures and raised exceptions become Except.
-/

namespace LangTutor

/-- models/dialogue.py DialogueRole (a closed str Enum). -/
inductive DialogueRole where
  | user
  | assistant
  | system
deriving DecidableEq, Repr

/-- The .value of the str enum. -/
def DialogueRole.value : DialogueRole → String
  | .user => "user"
  | .assistant => "assistant"
  | .system => "system"

/-- DialogueRole(s): the enum constructor on a raw string, None when it
would raise ValueError. -/
def DialogueRole.fromValue (s : String) : Option DialogueRole :=
  if s = "user" then some .user
  else if s = "assistant" then some .assistant
  else if s = "system" then some .system
  else none

/-- models/dialogue.py DialogueMessage. timestamp defaults to the
creation instant, audio_file_path to None. -/
structure DialogueMessage where
  role : DialogueRole
  content : String
  timestamp : Option Nat
  audio_file_path : Option String
deriving DecidableEq, Repr

/-- models/dialogue.py Dialogue. created_at defaults to the creation
instant, updated_at to None. -/
structure Dialogue where
  id : Option String
  title : String
  context : Option String
  level : String
  messages : List DialogueMessage
  created_at : Nat
  updated_at : Option Nat
deriving DecidableEq, Repr

/-- Dialogue.add_message: appends a freshly stamped message and
refreshes updated_at to the current time (the explicit now argument
stands for datetime.now()). -/
def Dialogue.add_message (d : Dialogue) (role : DialogueRole)
    (content : String) (now : Nat) : Dialogue :=
  { d with
    messages := d.messages ++
      [{ role := role, content := content,
         timestamp := some now, audio_file_path := none }],
    updated_at := some now }

/-- Dialogue.get_messages_by_role. -/
def Dialogue.get_messages_by_role (d : Dialogue) (role : DialogueRole) :
    List DialogueMessage :=
  d.messages.filter (fun msg => msg.role = role)

/-- The lines Dialogue.to_text builds: the Title line, a Context line
when the context is truthy (Python `if self.context:` skips both None
and the empty string), the Level line, a blank line, then one
speaker-labeled line appended per message. -/
def Dialogue.toTextLines (d : Dialogue) : List String :=
  let text_lines := ["Title: " ++ d.title]
  let text_lines := text_lines ++
    (match d.context with
     | some c => if c = "" then [] else ["Context: " ++ c]
     | none => [])
  let text_lines := text_lines ++ ["Level: " ++ d.level]
  let text_lines := text_lines ++ [""]
  d.messages.foldl
    (fun acc msg =>
      acc ++ [(if msg.role = DialogueRole.user then "Utilisateur" else "Assistant")
              ++ ": " ++ msg.content])
    text_lines

/-- Dialogue.to_text: the lines joined with newlines. -/
def Dialogue.to_text (d : Dialogue) : String :=
  String.intercalate "\n" d.toTextLines

/-- Python str.strip() (restricted to a single-character separator use
below): drop whitespace from both ends of the character list. -/
def pyStrip (s : String) : String :=
  String.mk
    (((s.toList.dropWhile Char.isWhitespace).reverse.dropWhile
        Char.isWhitespace).reverse)

/-- Python str.lower() (ASCII case folding). -/
def pyLower (s : String) : String :=
  String.mk (s.toList.map Char.toLower)

/-- Python `c in s` for a one-character needle. -/
def pyContainsChar (s : String) (c : Char) : Bool :=
  s.toList.contains c

/-- Worker for pySplitChar: accumulates the current segment reversed. -/
def splitCharAux (sep : Char) : List Char → List Char → List String
  | [], acc => [String.mk acc.reverse]
  | c :: rest, acc =>
    if c = sep then String.mk acc.reverse :: splitCharAux sep rest []
    else splitCharAux sep rest (c :: acc)

/-- Python str.split(sep) with a one-character separator: always at
least one segment, one extra segment per separator occurrence. -/
def pySplitChar (s : String) (sep : Char) : List String :=
  splitCharAux sep s.toList []

/-- Worker for splitColon1. -/
def splitFirstAux (sep : Char) : List Char → List Char → String × String
  | [], acc => (String.mk acc.reverse, "")
  | c :: rest, acc =>
    if c = sep then (String.mk acc.reverse, String.mk rest)
    else splitFirstAux sep rest (c :: acc)

/-- Python `line.split(":", 1)`: the part before the first colon and
everything after it (the callers use it only when a colon is present). -/
def splitColon1 (s : String) : String × String :=
  splitFirstAux ':' s.toList []

/-- Does the pattern start the text? -/
def startsWithList : List Char → List Char → Bool
  | [], _ => true
  | _ :: _, [] => false
  | a :: as, b :: bs => a = b && startsWithList as bs

/-- Contiguous substring test on character lists. -/
def infixOfList (w : List Char) : List Char → Bool
  | [] => startsWithList w []
  | l@(_ :: rest) => startsWithList w l || infixOfList w rest

/-- Python `w in s`: substring containment. -/
def strContainsSub (s w : String) : Bool :=
  infixOfList w.toList s.toList

/-- The alternation fallback shared by the parsers: the role opposite to
the last message, USER when there is no message yet (the last role
defaults to ASSISTANT). -/
def alternateRole (msgs : List DialogueMessage) : DialogueRole :=
  let last_role :=
    match msgs.getLast? with
    | some m => m.role
    | none => DialogueRole.assistant
  if last_role = DialogueRole.assistant then DialogueRole.user
  else DialogueRole.assistant

namespace FileService

/-- The speaker keywords of _parse_text_dialogue that imply USER. -/
def userWords : List String := ["user", "utilisateur", "client", "étudiant"]

/-- The speaker keywords of _parse_text_dialogue that imply ASSISTANT. -/
def assistantWords : List String := ["assistant", "tuteur", "prof", "teacher"]

/-- One iteration of the line loop of FileService._parse_text_dialogue:
skip blank lines; on a colon, split speaker from message, classify the
lowercased speaker against the keyword lists, else alternate; without a
colon, keep the whole line with the alternating role. -/
def parse_text_line (now : Nat) (dial : Dialogue) (rawLine : String) : Dialogue :=
  let line := pyStrip rawLine
  if line = "" then dial
  else if pyContainsChar line ':' then
    let sp := splitColon1 line
    let speaker := pyLower (pyStrip sp.1)
    let message := pyStrip sp.2
    let role :=
      if userWords.any (fun w => strContainsSub speaker w) then DialogueRole.user
      else if assistantWords.any (fun w => strContainsSub speaker w) then
        DialogueRole.assistant
      else alternateRole dial.messages
    dial.add_message role message now
  else
    dial.add_message (alternateRole dial.messages) line now

/-- FileService._parse_text_dialogue: a fresh beginner dialogue titled
with the filename, fed every line of the stripped content. -/
def parse_text_dialogue (content : String) (filename : String) (now : Nat) : Dialogue :=
  (pySplitChar (pyStrip content) '\n').foldl (parse_text_line now)
    { id := none, title := filename, context := none, level := "beginner",
      messages := [], created_at := now, updated_at := none }

end FileService

namespace OpenAIClient

/-- OpenAIClient._parse_dialogue_response (GeminiClient has the
identical body): lines holding a colon are split once; the speaker part
containing a literal capital A maps to USER, anything else to
ASSISTANT; lines without a colon are dropped. -/
def parse_dialogue_response (dialogue_text : String) (topic : String)
    (context : Option String) (level : String) (now : Nat) : Dialogue :=
  (pySplitChar (pyStrip dialogue_text) '\n').foldl
    (fun dial rawLine =>
      let line := pyStrip rawLine
      if pyContainsChar line ':' then
        let sp := splitColon1 line
        let content := pyStrip sp.2
        let role :=
          if pyContainsChar sp.1 'A' then DialogueRole.user
          else DialogueRole.assistant
        dial.add_message role content now
      else dial)
    { id := none, title := topic, context := context, level := level,
      messages := [], created_at := now, updated_at := none }

end OpenAIClient

/-- A JSON value as json.load produces it (numbers restricted to the
integers, which is all this code base ever writes). -/
inductive Json where
  | null
  | str (s : String)
  | num (n : Int)
  | arr (elems : List Json)
  | obj (fields : List (String × Json))

/-- dict.get on a parsed JSON object (a Python dict cannot hold a
duplicate key, so first-match lookup is dict lookup). -/
def dictGet (fields : List (String × Json)) (key : String) : Option Json :=
  (fields.find? (fun kv => kv.1 == key)).map (fun kv => kv.2)

/-- datetime.isoformat() on the abstract clock: an injective rendering
of the tick count. -/
def Datetime.isoformat (t : Nat) : String := toString t

/-- An optional string serialized as the string or null. -/
def jsonOfOptStr : Option String → Json
  | some s => Json.str s
  | none => Json.null

/-- An optional timestamp serialized as its ISO rendering or null. -/
def jsonOfOptTime : Option Nat → Json
  | some t => Json.str (Datetime.isoformat t)
  | none => Json.null

/-- Python str() of a parsed JSON scalar, used by the bare-list import
branch; the rendering of nested containers is abstracted (the claims
never reach it). -/
def Json.pyStr : Json → String
  | Json.null => "None"
  | Json.str s => s
  | Json.num n => toString n
  | Json.arr _ => "[list]"
  | Json.obj _ => "[dict]"

namespace FileService

/-- The per-message dictionary FileService.export_dialogue_to_json
builds: role value, content, ISO timestamp or null, audio path or null. -/
def exportMessage (msg : DialogueMessage) : Json :=
  Json.obj
    [("role", Json.str msg.role.value),
     ("content", Json.str msg.content),
     ("timestamp", jsonOfOptTime msg.timestamp),
     ("audio_file_path", jsonOfOptStr msg.audio_file_path)]

/-- FileService.export_dialogue_to_json: the dialogue_data dictionary
the method dumps to the output file (the file write itself is the
out-of-scope effect; the value written is what matters). -/
def export_dialogue_to_json (dialogue : Dialogue) : Json :=
  Json.obj
    [("id", jsonOfOptStr dialogue.id),
     ("title", Json.str dialogue.title),
     ("context", jsonOfOptStr dialogue.context),
     ("level", Json.str dialogue.level),
     ("created_at", Json.str (Datetime.isoformat dialogue.created_at)),
     ("updated_at", jsonOfOptTime dialogue.updated_at),
     ("messages", Json.arr (dialogue.messages.map exportMessage))]

/-- data.get(key, default) for a field pydantic will require to be a
string: absent gives the default, a JSON string gives itself, anything
else fails model validation. -/
def getStrField (fields : List (String × Json)) (key : String)
    (dflt : String) : Except String String :=
  match dictGet fields key with
  | none => Except.ok dflt
  | some (Json.str s) => Except.ok s
  | some _ => Except.error ("invalid " ++ key)

/-- data.get(key) for an optional string field: absent or null gives
None, a JSON string gives itself, anything else fails validation. -/
def getOptStrField (fields : List (String × Json)) (key : String) :
    Except String (Option String) :=
  match dictGet fields key with
  | none => Except.ok none
  | some Json.null => Except.ok none
  | some (Json.str s) => Except.ok (some s)
  | some _ => Except.error ("invalid " ++ key)

/-- The message loop of the structured import branch: each entry must
be a dict whose role is a valid DialogueRole value and whose content is
a string; add_message stamps it with the call time. -/
def import_messages (now : Nat) : Dialogue → List Json → Except String Dialogue
  | dial, [] => Except.ok dial
  | dial, mj :: rest =>
    match mj with
    | Json.obj fields =>
      match dictGet fields "role" with
      | some (Json.str r) =>
        match DialogueRole.fromValue r with
        | some role =>
          match dictGet fields "content" with
          | some (Json.str c) =>
            import_messages now (dial.add_message role c now) rest
          | _ => Except.error "missing or invalid content"
        | none => Except.error "invalid role value"
      | _ => Except.error "missing or invalid role"
    | _ => Except.error "message entry is not a dict"

/-- FileService.import_dialogue_from_json on the parsed file content:
a dict holding a messages key takes the structured branch (title,
context and level defaulted as in the source, then the message loop); a
bare list alternates USER/ASSISTANT by position over str() of each
entry; anything else is the unsupported-format error. now stands for
datetime.now() at the import call. -/
def import_dialogue_from_json (data : Json) (file_basename : String)
    (now : Nat) : Except String Dialogue :=
  match data with
  | Json.obj fields =>
    match dictGet fields "messages" with
    | some mv => do
      let title ← getStrField fields "title" "Imported Dialogue"
      let context ← getOptStrField fields "context"
      let level ← getStrField fields "level" "beginner"
      let dialogue : Dialogue :=
        { id := none, title := title, context := context, level := level,
          messages := [], created_at := now, updated_at := none }
      match mv with
      | Json.arr msgs => import_messages now dialogue msgs
      | _ => Except.error "messages is not iterable"
    | none => Except.error "Unsupported JSON format"
  | Json.arr items =>
    let dialogue : Dialogue :=
      { id := none, title := file_basename, context := none,
        level := "beginner", messages := [], created_at := now,
        updated_at := none }
    Except.ok <|
      (items.foldl
        (fun acc content =>
          let role :=
            if acc.2 % 2 = 0 then DialogueRole.user else DialogueRole.assistant
          (acc.1.add_message role content.pyStr now, acc.2 + 1))
        (dialogue, 0)).1
  | _ => Except.error "Unsupported JSON format"

end FileService

/-- The empty dialogue used by concrete witnesses. -/
def dEmpty : Dialogue :=
  { id := none, title := "t", context := none, level := "beginner",
    messages := [], created_at := 0, updated_at := none }

/-- A concrete message carrying a timestamp and an audio reference. -/
def msg0 : DialogueMessage :=
  { role := DialogueRole.user, content := "Bonjour", timestamp := some 5,
    audio_file_path := some "audio_output/a.wav" }

/-- A concrete dialogue with every optional field populated. -/
def d0 : Dialogue :=
  { id := some "42", title := "Au café", context := some "Commander un café",
    level := "beginner", messages := [msg0], created_at := 3,
    updated_at := some 7 }

/-- A recorded speech-synthesis invocation: the text and voice actually
handed to the TTS client (the network call itself is the out-of-scope
effect). -/
structure SynthCall where
  text : String
  voice : String
deriving DecidableEq, Repr

/-- Python truthiness of an optional string: None and the empty string
are falsy. -/
def pyTruthyOptStr : Option String → Bool
  | none => false
  | some s => s != ""

/-- f-string rendering of the optional dialogue id (None prints as
None). -/
def pyShowOptId : Option String → String
  | some s => s
  | none => "None"

/-- The synthesis guard of the dialogue loop, straight from the source:
not message.audio_file_path and message.content.strip(). -/
def needsAudio (m : DialogueMessage) : Bool :=
  !pyTruthyOptStr m.audio_file_path && pyStrip m.content != ""

namespace AudioService

/-- AudioService.generate_audio_for_text on its success path, filename
given (the dialogue loop always passes one): the synthesized audio is
written through save_audio_file of api/tts_client_new.py, which joins
the fixed audio_output directory with the filename and returns that
path; the synthesis is reported as a SynthCall. -/
def generate_audio_for_text (text voice filename : String) :
    String × SynthCall :=
  ("audio_output/" ++ filename, { text := text, voice := voice })

/-- The indexed message loop of
AudioService.generate_audio_for_dialogue: a message with falsy
audio_file_path and non-blank stripped content gets audio named
dialogue_<id>_message_<i>.wav, voiced by the explicit voice_name when
truthy or else by the role value, and its audio_file_path set to the
saved path; every other message passes through unchanged. Returns the
rewritten messages plus the synthesis calls performed. -/
def generate_audio_messages (did : String) (voice_name : Option String) :
    Nat → List DialogueMessage → List DialogueMessage × List SynthCall
  | _, [] => ([], [])
  | i, message :: rest =>
    if needsAudio message then
      let filename := "dialogue_" ++ did ++ "_message_" ++ toString i ++ ".wav"
      let speaker_voice :=
        match voice_name with
        | some v => if v = "" then message.role.value else v
        | none => message.role.value
      let res := generate_audio_for_text message.content speaker_voice filename
      let tail := generate_audio_messages did voice_name (i + 1) rest
      ({ message with audio_file_path := some res.1 } :: tail.1,
       res.2 :: tail.2)
    else
      let tail := generate_audio_messages did voice_name (i + 1) rest
      (message :: tail.1, tail.2)

/-- AudioService.generate_audio_for_dialogue: run the message loop from
index 0 and return the updated dialogue together with the synthesis
calls made. -/
def generate_audio_for_dialogue (dialogue : Dialogue)
    (voice_name : Option String) : Dialogue × List SynthCall :=
  let res := generate_audio_messages (pyShowOptId dialogue.id) voice_name 0
    dialogue.messages
  ({ dialogue with messages := res.1 }, res.2)

end AudioService

/-- One entry of the audio_output directory: a file path and the
creation time os.stat reports for it. -/
structure AudioFileInfo where
  file_path : String
  created_at : Nat
deriving DecidableEq, Repr

/-- Python str.endswith for one candidate: the reversed text starts
with the reversed tail. -/
def pyEndsWith (s w : String) : Bool :=
  startsWithList w.toList.reverse s.toList.reverse

/-- Newest first: the ordering list.sort(key=created_at, reverse=True)
arranges, modelled with a stable insertion sort. -/
def newestFirst (a b : AudioFileInfo) : Prop :=
  b.created_at ≤ a.created_at

instance : DecidableRel newestFirst := fun a b =>
  Nat.decLe b.created_at a.created_at

instance : IsTotal AudioFileInfo newestFirst :=
  ⟨fun a b => (Nat.le_total b.created_at a.created_at).elim Or.inl Or.inr⟩

instance : IsTrans AudioFileInfo newestFirst :=
  ⟨fun _ _ _ hab hbc => Nat.le_trans hbc hab⟩

namespace AudioService

/-- The extension filter of list_audio_files:
filename.endswith((".mp3", ".wav", ".m4a")). -/
def isAudioFile (f : AudioFileInfo) : Bool :=
  pyEndsWith f.file_path ".mp3" || pyEndsWith f.file_path ".wav"
    || pyEndsWith f.file_path ".m4a"

/-- AudioService.list_audio_files over the given directory listing:
keep the mp3/wav/m4a entries and sort them newest-first by creation
time. -/
def list_audio_files (fs : List AudioFileInfo) : List AudioFileInfo :=
  (fs.filter isAudioFile).insertionSort newestFirst

/-- AudioService.delete_audio_file: os.remove succeeds exactly when the
path exists; the directory afterwards no longer holds that path. -/
def delete_audio_file (fs : List AudioFileInfo) (path : String) :
    Bool × List AudioFileInfo :=
  if fs.any (fun g => g.file_path == path) then
    (true, fs.filter (fun g => g.file_path != path))
  else (false, fs)

/-- AudioService.cleanup_old_files: nothing to do while the listing
does not exceed max_files; otherwise delete every listed file past the
first max_files (the oldest, the listing being newest-first), counting
the successful deletions. Returns the count and the directory state
left behind. -/
def cleanup_old_files (fs : List AudioFileInfo) (max_files : Nat) :
    Nat × List AudioFileInfo :=
  let audio_files := list_audio_files fs
  if audio_files.length ≤ max_files then (0, fs)
  else
    (audio_files.drop max_files).foldl
      (fun acc f =>
        let r := delete_audio_file acc.2 f.file_path
        (if r.1 then acc.1 + 1 else acc.1, r.2))
      (0, fs)

end AudioService

namespace DialogueService

/-- DialogueService.validate_dialogue_parameters: collect one error per
failed check (empty topic, level outside the closed set, exchange count
outside 1..max_dialogue_length); valid iff no error. -/
def validate_dialogue_parameters (max_dialogue_length : Int)
    (topic level : String) (num_exchanges : Int) : Bool × List String :=
  let errors : List String :=
    (if topic = "" ∨ pyStrip topic = "" then ["Topic cannot be empty"] else [])
    ++ (if level = "beginner" ∨ level = "intermediate" ∨ level = "advanced"
        then []
        else ["Level must be \x27beginner\x27, \x27intermediate\x27, or \x27advanced\x27"])
    ++ (if num_exchanges < 1 ∨ num_exchanges > max_dialogue_length
        then ["Number of exchanges must be between 1 and "
              ++ toString max_dialogue_length]
        else [])
  (errors.isEmpty, errors)

/-- DialogueService.generate_dialogue with the LLM client abstracted to
the function gen of the exchange count: a missing num_exchanges
defaults to min(max_dialogue_length, 8), after which the client is
invoked unconditionally — the method performs no parameter
validation. -/
def generate_dialogue (gen : Int → Dialogue) (max_dialogue_length : Int)
    (num_exchanges : Option Int) : Dialogue :=
  let n :=
    match num_exchanges with
    | none => min max_dialogue_length 8
    | some k => k
  gen n

end DialogueService

/-- A stand-in LLM generator producing one fixed assistant message. -/
def demoGen : Int → Dialogue := fun _ =>
  dEmpty.add_message DialogueRole.assistant "Bonjour !" 0

/-- A concrete audio directory: three wav files with distinct creation
times, used by the cleanup witness. -/
def fs0 : List AudioFileInfo :=
  [{ file_path := "a.wav", created_at := 5 },
   { file_path := "b.wav", created_at := 1 },
   { file_path := "c.wav", created_at := 3 }]

/-- The enum round-trips through its string value. -/
theorem fromValue_value (r : DialogueRole) : DialogueRole.fromValue r.value = some r := by
  cases r <;> rfl

/-- Importing the exported message list succeeds and replays add_message
over the (role, content) pairs. -/
theorem import_messages_export (now : Nat) (ms : List DialogueMessage) (dial : Dialogue) :
    FileService.import_messages now dial (ms.map FileService.exportMessage)
      = Except.ok
          (ms.foldl (fun d m => d.add_message m.role m.content now) dial) := by
  induction ms generalizing dial with
  | nil => rfl
  | cons m rest ih =>
    obtain ⟨mr, mc, mt, ma⟩ := m
    have hstep : FileService.import_messages now dial
        ((DialogueMessage.mk mr mc mt ma :: rest).map FileService.exportMessage)
        = FileService.import_messages now
            (dial.add_message mr mc now) (rest.map FileService.exportMessage) := by
      cases mr <;> rfl
    rw [hstep, ih]
    rfl

/-- Replaying add_message over a message list appends the stamped
copies and refreshes updated_at exactly when the list is non-empty. -/
theorem foldl_add_message_spec (now : Nat) (ms : List DialogueMessage) (dial : Dialogue) :
    ms.foldl (fun d m => d.add_message m.role m.content now) dial
      = { dial with
          messages := dial.messages ++ ms.map
            (fun m => { role := m.role, content := m.content,
                        timestamp := some now, audio_file_path := none }),
          updated_at := if ms.isEmpty then dial.updated_at else some now } := by
  induction ms generalizing dial with
  | nil => simp
  | cons m rest ih =>
    rw [List.foldl_cons, ih]
    simp [Dialogue.add_message]

/-- Importing an exported dialogue reduces to replaying the structured
message loop on a fresh dialogue carrying the exported title, context
and level. -/
theorem import_export_unfold (d : Dialogue) (fb : String) (now : Nat) :
    FileService.import_dialogue_from_json
        (FileService.export_dialogue_to_json d) fb now
      = FileService.import_messages now
          { id := none, title := d.title, context := d.context,
            level := d.level, messages := [], created_at := now,
            updated_at := none }
          (d.messages.map FileService.exportMessage) := by
  obtain ⟨i0, t0, c0, l0, ms0, ca0, ua0⟩ := d
  cases c0 <;> rfl

/-- C1: for every Dialogue, exporting with
FileService.export_dialogue_to_json and importing the written value
with FileService.import_dialogue_from_json succeeds and yields a
Dialogue with the same ordered (role, content) sequence and the same
title, level and context. -/
theorem export_import_roundtrip (d : Dialogue) (fb : String) (now : Nat) :
    (FileService.import_dialogue_from_json
        (FileService.export_dialogue_to_json d) fb now).map
      (fun d2 => (d2.title, d2.level, d2.context,
        d2.messages.map (fun m => (m.role, m.content))))
    = Except.ok (d.title, d.level, d.context,
        d.messages.map (fun m => (m.role, m.content))) := by
  rw [import_export_unfold, import_messages_export, foldl_add_message_spec]
  simp [Except.map, List.map_map]

/-- C2 counterexample: importing the export of d0 does not reproduce
the audio file reference of its message: the imported message has
audio_file_path none while the original carries a path, so export is
not the exact inverse of the structured import. -/
theorem export_import_drops_audio_cex :
    (FileService.import_dialogue_from_json
        (FileService.export_dialogue_to_json d0) "f.json" 100).map
      (fun d2 => d2.messages.map (fun m => m.audio_file_path))
      = Except.ok [none]
    ∧ d0.messages.map (fun m => m.audio_file_path)
      = [some "audio_output/a.wav"] :=
  ⟨rfl, rfl⟩

/-- C2 (amended): export serializes every field of the Dialogue model
(id, title, context, level, ISO created_at, ISO-or-null updated_at, and
per message the role value, content, ISO-or-null timestamp and audio
path), and importing the export reproduces title, level, context and
the ordered (role, content) pairs; but the import discards id,
created_at, the per-message timestamps and the audio references: the
imported dialogue has id none, created_at at the import time, every
message stamped with the import time and no audio path. -/
theorem export_complete_import_partial_inverse (d : Dialogue) (fb : String) (now : Nat) :
    FileService.export_dialogue_to_json d
      = Json.obj
          [("id", jsonOfOptStr d.id),
           ("title", Json.str d.title),
           ("context", jsonOfOptStr d.context),
           ("level", Json.str d.level),
           ("created_at", Json.str (Datetime.isoformat d.created_at)),
           ("updated_at", jsonOfOptTime d.updated_at),
           ("messages", Json.arr (d.messages.map (fun m =>
              Json.obj
                [("role", Json.str m.role.value),
                 ("content", Json.str m.content),
                 ("timestamp", jsonOfOptTime m.timestamp),
                 ("audio_file_path", jsonOfOptStr m.audio_file_path)])))]
    ∧ (FileService.import_dialogue_from_json
          (FileService.export_dialogue_to_json d) fb now).map
        (fun d2 => (d2.title, d2.level, d2.context,
          d2.messages.map (fun m => (m.role, m.content)),
          d2.id, d2.created_at,
          d2.messages.map (fun m => m.timestamp),
          d2.messages.map (fun m => m.audio_file_path)))
      = Except.ok (d.title, d.level, d.context,
          d.messages.map (fun m => (m.role, m.content)),
          none, now,
          d.messages.map (fun _ => some now),
          d.messages.map (fun _ => (none : Option String))) := by
  refine ⟨rfl, ?_⟩
  rw [import_export_unfold, import_messages_export, foldl_add_message_spec]
  simp [Except.map, List.map_map, Function.comp_def]

/-- C3 counterexample: the LLM response parser does not keep colon-less
lines: parsing the single non-empty line Bonjour (no colon) yields no
message at all, so the line is discarded rather than treated as a
continuation utterance. -/
theorem llm_parse_discards_colonless_cex :
    (OpenAIClient.parse_dialogue_response "Bonjour" "topic" none "beginner" 0).messages
      = [] := rfl

/-- C3 (amended): only FileService._parse_text_dialogue treats a
non-empty colon-less line as a continuation utterance: it keeps the
stripped line as a message whose role alternates from the previous
message, the first such message defaulting to USER (the empty message
list alternates to USER); the LLM response parsers and the markdown
parser discard such lines. -/
theorem parse_text_keeps_colonless (dial : Dialogue) (rawLine : String) (now : Nat)
    (h1 : pyStrip rawLine ≠ "")
    (h2 : pyContainsChar (pyStrip rawLine) ':' = false) :
    FileService.parse_text_line now dial rawLine
      = dial.add_message (alternateRole dial.messages) (pyStrip rawLine) now
    ∧ alternateRole [] = DialogueRole.user := by
  refine ⟨?_, rfl⟩
  simp [FileService.parse_text_line, h1, h2]

/-- C3 witness: the colon-less line Bonjour on the empty dialogue is
kept as a USER message. -/
theorem parse_text_keeps_colonless_witness :
    FileService.parse_text_line 0 dEmpty "Bonjour"
      = dEmpty.add_message DialogueRole.user "Bonjour" 0
    ∧ alternateRole [] = DialogueRole.user := by
  have h := parse_text_keeps_colonless dEmpty "Bonjour" 0 (by decide) (by decide)
  exact ⟨h.1, h.2⟩

/-- C4: parsing the response text Personne A: Bonjour / Personne B:
Salut with the LLM dialogue response parser yields exactly two
messages, (USER, Bonjour) then (ASSISTANT, Salut), with the contents
intact. -/
theorem llm_parse_personne_example :
    (OpenAIClient.parse_dialogue_response
        "Personne A: Bonjour\nPersonne B: Salut" "Salutations" none "beginner" 0).messages.map
      (fun m => (m.role, m.content))
      = [(DialogueRole.user, "Bonjour"), (DialogueRole.assistant, "Salut")] := rfl

/-- C5: add_message appends exactly one message at the end, preserves
every previously stored message and their order, and refreshes
updated_at to the call time, so over two successive calls with a
nondecreasing clock updated_at never decreases (and stays equal under a
frozen clock). -/
theorem add_message_spec (d : Dialogue) (r r2 : DialogueRole)
    (c c2 : String) (t1 t2 : Nat) (h : t1 ≤ t2) :
    (d.add_message r c t1).messages.length = d.messages.length + 1
    ∧ (d.add_message r c t1).messages
        = d.messages ++ [{ role := r, content := c, timestamp := some t1,
                           audio_file_path := none }]
    ∧ (d.add_message r c t1).updated_at = some t1
    ∧ ((d.add_message r c t1).add_message r2 c2 t2).updated_at = some t2
    ∧ (∀ u1 u2 : Nat,
        (d.add_message r c t1).updated_at = some u1 →
        ((d.add_message r c t1).add_message r2 c2 t2).updated_at = some u2 →
        u1 ≤ u2) := by
  refine ⟨by simp [Dialogue.add_message], rfl, rfl, rfl, ?_⟩
  intro u1 u2 h1 h2
  simp [Dialogue.add_message] at h1 h2
  rw [← h1, ← h2]
  exact h

/-- C5 witness at concrete times 1 ≤ 2 on the empty dialogue. -/
theorem add_message_spec_witness :
    (dEmpty.add_message DialogueRole.user "Bonjour" 1).messages.length
        = dEmpty.messages.length + 1
    ∧ (dEmpty.add_message DialogueRole.user "Bonjour" 1).messages
        = dEmpty.messages
          ++ [{ role := DialogueRole.user, content := "Bonjour",
                timestamp := some 1, audio_file_path := none }]
    ∧ (dEmpty.add_message DialogueRole.user "Bonjour" 1).updated_at = some 1
    ∧ ((dEmpty.add_message DialogueRole.user "Bonjour" 1).add_message
          DialogueRole.assistant "Salut" 2).updated_at = some 2
    ∧ (∀ u1 u2 : Nat,
        (dEmpty.add_message DialogueRole.user "Bonjour" 1).updated_at = some u1 →
        ((dEmpty.add_message DialogueRole.user "Bonjour" 1).add_message
            DialogueRole.assistant "Salut" 2).updated_at = some u2 →
        u1 ≤ u2) :=
  add_message_spec dEmpty DialogueRole.user DialogueRole.assistant
    "Bonjour" "Salut" 1 2 (by decide)

/-- C6 counterexample: adding a message whose content is the empty
string stores a message with empty content — the model enforces no
non-emptiness — so not every stored message has non-empty content. -/
theorem add_message_empty_content_cex :
    (dEmpty.add_message DialogueRole.user "" 0).messages.map
        (fun m => m.content) = [""]
    ∧ ¬ (∀ m ∈ (dEmpty.add_message DialogueRole.user "" 0).messages,
          m.content ≠ "") :=
  ⟨rfl, by decide⟩

/-- C6 (amended): add_message performs no content validation: the
stored content sequence extends by exactly the string passed, which may
be empty; every stored message's content is the string it was added
with, verbatim. -/
theorem add_message_stores_content_verbatim (d : Dialogue) (r : DialogueRole)
    (c : String) (now : Nat) :
    (d.add_message r c now).messages.map (fun m => m.content)
      = d.messages.map (fun m => m.content) ++ [c] := by
  simp [Dialogue.add_message]

/-- Appending one image per element in a left fold produces the initial
list followed by the map. -/
theorem foldl_append_singleton_map {α β : Type} (f : α → β)
    (l : List α) (init : List β) :
    l.foldl (fun acc x => acc ++ [f x]) init = init ++ l.map f := by
  induction l generalizing init with
  | nil => simp
  | cons x xs ih => simp [ih]

/-- C10: to_text renders the Title/Context/Level header, a blank line,
then exactly one speaker-labeled line per message in order; the label
is Utilisateur exactly for USER and Assistant for every other role,
SYSTEM included. -/
theorem to_text_speaker_labels (d : Dialogue) :
    d.to_text = String.intercalate "\n"
      ((["Title: " ++ d.title]
        ++ (match d.context with
            | some c => if c = "" then [] else ["Context: " ++ c]
            | none => [])
        ++ ["Level: " ++ d.level, ""])
        ++ d.messages.map (fun m =>
            (if m.role = DialogueRole.user then "Utilisateur" else "Assistant")
            ++ ": " ++ m.content))
    ∧ (∀ r : DialogueRole,
        (if r = DialogueRole.user then "Utilisateur" else "Assistant")
          = "Utilisateur"
        ∨ (if r = DialogueRole.user then "Utilisateur" else "Assistant")
          = "Assistant")
    ∧ (if DialogueRole.system = DialogueRole.user then "Utilisateur"
       else "Assistant") = "Assistant" := by
  refine ⟨?_, ?_, rfl⟩
  · unfold Dialogue.to_text Dialogue.toTextLines
    rw [foldl_append_singleton_map]
    simp [List.append_assoc]
  · intro r
    cases r <;> simp

/-- A saved audio path is never the empty string. -/
theorem audio_path_ne_empty (f : String) : ("audio_output/" ++ f) ≠ "" := by
  intro h
  have h2 : ("audio_output/" ++ f).length = ("" : String).length := by rw [h]
  rw [String.length_append] at h2
  have h3 : ("audio_output/" : String).length = 13 := rfl
  have h4 : ("" : String).length = 0 := rfl
  omega

/-- Every message the audio loop outputs fails the synthesis guard:
either it came in with audio or blank content, or it just received a
non-empty audio path. -/
theorem generate_audio_messages_output_done (did : String) (v : Option String)
    (msgs : List DialogueMessage) (i : Nat) (m : DialogueMessage)
    (hm : m ∈ (AudioService.generate_audio_messages did v i msgs).1) :
    needsAudio m = false := by
  induction msgs generalizing i with
  | nil => simp [AudioService.generate_audio_messages] at hm
  | cons x rest ih =>
    by_cases hc : needsAudio x = true
    · simp only [AudioService.generate_audio_messages, hc, if_true] at hm
      rcases List.mem_cons.mp hm with h1 | h1
      · subst h1
        simp [needsAudio, pyTruthyOptStr, bne_iff_ne,
          AudioService.generate_audio_for_text, audio_path_ne_empty]
      · exact ih (i + 1) h1
    · rw [Bool.not_eq_true] at hc
      simp only [AudioService.generate_audio_messages, hc, Bool.false_eq_true,
        if_false] at hm
      rcases List.mem_cons.mp hm with h1 | h1
      · subst h1; exact hc
      · exact ih (i + 1) h1

/-- The audio loop leaves a message list alone, and synthesizes
nothing, when every message fails the synthesis guard. -/
theorem generate_audio_messages_noop (did : String) (v : Option String)
    (msgs : List DialogueMessage) (j : Nat)
    (hall : ∀ m ∈ msgs, needsAudio m = false) :
    AudioService.generate_audio_messages did v j msgs = (msgs, []) := by
  induction msgs generalizing j with
  | nil => rfl
  | cons m rest ih =>
    have hm := hall m (List.mem_cons_self m rest)
    simp only [AudioService.generate_audio_messages, hm, Bool.false_eq_true,
      if_false]
    rw [ih (j + 1) (fun m2 hm2 => hall m2 (List.mem_cons_of_mem m hm2))]

/-- The audio loop performs exactly one synthesis call per message
satisfying the guard. -/
theorem generate_audio_messages_count (did : String) (v : Option String)
    (msgs : List DialogueMessage) (i : Nat) :
    (AudioService.generate_audio_messages did v i msgs).2.length
      = (msgs.filter needsAudio).length := by
  induction msgs generalizing i with
  | nil => rfl
  | cons m rest ih =>
    by_cases hc : needsAudio m = true
    · simp [AudioService.generate_audio_messages, hc, List.filter, ih (i + 1)]
    · rw [Bool.not_eq_true] at hc
      simp [AudioService.generate_audio_messages, hc, List.filter, ih (i + 1)]

/-- C7: batch audio generation is idempotent: it synthesizes exactly
one call per message whose audio_file_path is unset (and whose content
is non-blank), and running it again on its own output performs zero
synthesis calls and returns the dialogue unchanged — messages that
carry an audio reference keep it. -/
theorem generate_audio_idempotent (d : Dialogue) (voice : Option String) :
    AudioService.generate_audio_for_dialogue
        ((AudioService.generate_audio_for_dialogue d voice).1) voice
      = ((AudioService.generate_audio_for_dialogue d voice).1, [])
    ∧ (AudioService.generate_audio_for_dialogue d voice).2.length
      = (d.messages.filter needsAudio).length := by
  constructor
  · unfold AudioService.generate_audio_for_dialogue
    rw [generate_audio_messages_noop _ _ _ _
      (fun m hm => generate_audio_messages_output_done _ _ _ _ _ hm)]
  · exact generate_audio_messages_count _ _ _ _

/-- Removing one present path from a duplicate-free directory shrinks
it by exactly one entry. -/
theorem filter_out_path_length (p : String) (fs : List AudioFileInfo)
    (hnd : (fs.map (fun f => f.file_path)).Nodup)
    (hm : ∃ f ∈ fs, f.file_path = p) :
    (fs.filter (fun g => g.file_path != p)).length + 1 = fs.length := by
  induction fs with
  | nil => simp at hm
  | cons g rest ih =>
    rw [List.map_cons, List.nodup_cons] at hnd
    by_cases hg : g.file_path = p
    · have hrest : rest.filter (fun x => x.file_path != p) = rest := by
        rw [List.filter_eq_self]
        intro a ha
        rw [bne_iff_ne]
        intro hap
        have hmem : a.file_path ∈ rest.map (fun f => f.file_path) :=
          List.mem_map_of_mem _ ha
        rw [hap, ← hg] at hmem
        exact hnd.1 hmem
      simp [List.filter_cons, hg, hrest]
    · obtain ⟨f, hf, hfp⟩ := hm
      rcases List.mem_cons.mp hf with rfl | hf2
      · exact absurd hfp hg
      · have hcons : (g :: rest).filter (fun x => x.file_path != p)
            = g :: rest.filter (fun x => x.file_path != p) := by
          simp [List.filter_cons, bne_iff_ne, hg]
        rw [hcons, List.length_cons, List.length_cons]
        have := ih hnd.2 ⟨f, hf2, hfp⟩
        omega

/-- Folding the deletion step over a duplicate-free batch of files all
present in a duplicate-free directory: every deletion succeeds, so the
counter grows by the batch size and the directory shrinks by it. -/
theorem delete_fold_spec (todel : List AudioFileInfo) :
    ∀ (fs : List AudioFileInfo) (c : Nat),
    (fs.map (fun f => f.file_path)).Nodup →
    (∀ f ∈ todel, f ∈ fs) →
    (todel.map (fun f => f.file_path)).Nodup →
    (todel.foldl
        (fun acc f =>
          let r := AudioService.delete_audio_file acc.2 f.file_path
          (if r.1 then acc.1 + 1 else acc.1, r.2))
        (c, fs)).1 = c + todel.length
    ∧ (todel.foldl
        (fun acc f =>
          let r := AudioService.delete_audio_file acc.2 f.file_path
          (if r.1 then acc.1 + 1 else acc.1, r.2))
        (c, fs)).2.length + todel.length = fs.length := by
  induction todel with
  | nil => intro fs c _ _ _; exact ⟨rfl, by simp⟩
  | cons f todel ih =>
    intro fs c hnd hin htd
    have hf : f ∈ fs := hin f (List.mem_cons_self f todel)
    have hany : fs.any (fun g => g.file_path == f.file_path) = true :=
      List.any_eq_true.mpr ⟨f, hf, by simp⟩
    have hdel : AudioService.delete_audio_file fs f.file_path
        = (true, fs.filter (fun g => g.file_path != f.file_path)) := by
      simp [AudioService.delete_audio_file, hany]
    rw [List.map_cons, List.nodup_cons] at htd
    have hnd2 : ((fs.filter (fun g => g.file_path != f.file_path)).map
        (fun f => f.file_path)).Nodup :=
      List.Nodup.sublist
        (List.Sublist.map _ (List.filter_sublist fs)) hnd
    have hin2 : ∀ g ∈ todel,
        g ∈ fs.filter (fun g => g.file_path != f.file_path) := by
      intro g hg
      rw [List.mem_filter]
      refine ⟨hin g (List.mem_cons_of_mem f hg), ?_⟩
      rw [bne_iff_ne]
      intro heq
      exact htd.1 (heq ▸ List.mem_map_of_mem _ hg)
    have hlen : (fs.filter (fun g => g.file_path != f.file_path)).length + 1
        = fs.length :=
      filter_out_path_length f.file_path fs hnd ⟨f, hf, rfl⟩
    have hstep := ih (fs.filter (fun g => g.file_path != f.file_path))
      (c + 1) hnd2 hin2 htd.2
    have hinit : (let r := AudioService.delete_audio_file (c, fs).2 f.file_path;
        (if r.1 then (c, fs).1 + 1 else (c, fs).1, r.2))
        = (c + 1, fs.filter (fun g => g.file_path != f.file_path)) := by
      simp [hdel]
    rw [List.foldl_cons, hinit]
    refine ⟨?_, ?_⟩
    · rw [hstep.1, List.length_cons]
      omega
    · rw [List.length_cons]
      have h2 := hstep.2
      omega

/-- C8: on a directory listing with no duplicate paths, cleanup deletes
nothing while the audio-file count does not exceed max_files and
returns 0; when the count exceeds max_files it returns exactly
count - max_files, the directory shrinks by exactly that many entries,
and every deleted file is no newer than every kept one (the deletions
fall on the oldest creation times). -/
theorem cleanup_old_files_spec (fs : List AudioFileInfo) (max_files : Nat)
    (hnd : (fs.map (fun f => f.file_path)).Nodup) :
    ((AudioService.list_audio_files fs).length ≤ max_files →
      AudioService.cleanup_old_files fs max_files = (0, fs))
    ∧ (max_files < (AudioService.list_audio_files fs).length →
      (AudioService.cleanup_old_files fs max_files).1
          = (AudioService.list_audio_files fs).length - max_files
      ∧ (AudioService.cleanup_old_files fs max_files).2.length
          + ((AudioService.list_audio_files fs).length - max_files)
          = fs.length
      ∧ ∀ d2 ∈ (AudioService.list_audio_files fs).drop max_files,
          ∀ k ∈ (AudioService.list_audio_files fs).take max_files,
          d2.created_at ≤ k.created_at) := by
  constructor
  · intro hle
    simp [AudioService.cleanup_old_files, hle]
  · intro hgt
    have hnle : ¬ ((AudioService.list_audio_files fs).length ≤ max_files) :=
      not_le.mpr hgt
    have hclean : AudioService.cleanup_old_files fs max_files
        = ((AudioService.list_audio_files fs).drop max_files).foldl
            (fun acc f =>
              let r := AudioService.delete_audio_file acc.2 f.file_path
              (if r.1 then acc.1 + 1 else acc.1, r.2))
            (0, fs) := by
      simp [AudioService.cleanup_old_files, hnle]
    have hperm : (AudioService.list_audio_files fs).Perm
        (fs.filter AudioService.isAudioFile) :=
      List.perm_insertionSort newestFirst _
    have hndfil : ((fs.filter AudioService.isAudioFile).map
        (fun f => f.file_path)).Nodup :=
      List.Nodup.sublist (List.Sublist.map _ (List.filter_sublist fs)) hnd
    have hndfiles : ((AudioService.list_audio_files fs).map
        (fun f => f.file_path)).Nodup :=
      (List.Perm.nodup_iff (List.Perm.map _ hperm)).mpr hndfil
    have hndtd : (((AudioService.list_audio_files fs).drop max_files).map
        (fun f => f.file_path)).Nodup :=
      List.Nodup.sublist (List.Sublist.map _ (List.drop_sublist _ _)) hndfiles
    have hintd : ∀ f ∈ (AudioService.list_audio_files fs).drop max_files,
        f ∈ fs := by
      intro f hf
      have h1 : f ∈ AudioService.list_audio_files fs :=
        List.drop_subset _ _ hf
      have h2 : f ∈ fs.filter AudioService.isAudioFile := hperm.mem_iff.mp h1
      exact List.mem_of_mem_filter h2
    have hfold := delete_fold_spec
      ((AudioService.list_audio_files fs).drop max_files) fs 0 hnd hintd hndtd
    have hdroplen : ((AudioService.list_audio_files fs).drop max_files).length
        = (AudioService.list_audio_files fs).length - max_files :=
      List.length_drop _ _
    refine ⟨?_, ?_, ?_⟩
    · rw [hclean, hfold.1, hdroplen]
      omega
    · rw [hclean]
      have h2 := hfold.2
      rw [hdroplen] at h2
      omega
    · have hsort : List.Sorted newestFirst (AudioService.list_audio_files fs) :=
        List.sorted_insertionSort newestFirst _
      rw [← List.take_append_drop max_files (AudioService.list_audio_files fs)]
        at hsort
      have h3 := (List.pairwise_append.mp hsort).2.2
      intro d2 hd2 k hk
      exact h3 k hk d2 hd2

/-- C8 witness: three wav files against a cap of 1: two deletions
reported, one file left. -/
theorem cleanup_old_files_spec_witness :
    (AudioService.cleanup_old_files fs0 1).1 = 2
    ∧ (AudioService.cleanup_old_files fs0 1).2.length + 2 = 3 := by
  have h := cleanup_old_files_spec fs0 1 (by decide)
  have h2 := h.2 (by decide)
  exact ⟨h2.1, h2.2.1⟩

/-- C9 counterexample: with num_exchanges 0 the validator reports
invalid with a non-empty error list, yet
DialogueService.generate_dialogue never consults the validator: called
with the same request it invokes the LLM client unconditionally and a
dialogue is produced. -/
theorem validate_zero_generates_anyway_cex :
    (DialogueService.validate_dialogue_parameters 10
        "Les salutations" "beginner" 0).1 = false
    ∧ (DialogueService.validate_dialogue_parameters 10
        "Les salutations" "beginner" 0).2 ≠ []
    ∧ DialogueService.generate_dialogue demoGen 10 (some 0) = demoGen 0
    ∧ (DialogueService.generate_dialogue demoGen 10 (some 0)).messages.length
        = 1 := by
  refine ⟨rfl, ?_, rfl, rfl⟩
  intro h
  exact absurd (congrArg List.length h) (by decide)

/-- C9 (amended): validating a request whose num_exchanges is below 1
or above max_dialogue_length reports valid false with a non-empty error
list (and the validator itself produces no dialogue); but
DialogueService.generate_dialogue performs no such check: called with
the same out-of-range count it hands it to the LLM client
unconditionally, so nothing in the service refuses generation. -/
theorem validate_rejects_out_of_range (maxLen : Int) (topic level : String)
    (n : Int) (h : n < 1 ∨ n > maxLen) :
    (DialogueService.validate_dialogue_parameters maxLen topic level n).1
        = false
    ∧ (DialogueService.validate_dialogue_parameters maxLen topic level n).2
        ≠ []
    ∧ ∀ gen : Int → Dialogue,
        DialogueService.generate_dialogue gen maxLen (some n) = gen n := by
  refine ⟨?_, ?_, fun gen => rfl⟩
  · simp [DialogueService.validate_dialogue_parameters, h]
  · simp [DialogueService.validate_dialogue_parameters, h]

/-- C9 witness: the out-of-range count 0 against a cap of 10. -/
theorem validate_rejects_out_of_range_witness :
    (DialogueService.validate_dialogue_parameters 10
        "Bonjour" "beginner" 0).1 = false
    ∧ (DialogueService.validate_dialogue_parameters 10
        "Bonjour" "beginner" 0).2 ≠ []
    ∧ ∀ gen : Int → Dialogue,
        DialogueService.generate_dialogue gen 10 (some 0) = gen 0 :=
  validate_rejects_out_of_range 10 "Bonjour" "beginner" 0 (Or.inl (by decide))

end LangTutor
